import Mathlib

/-!
Verification of the reconciliation routine `DwDbc.process` from
`plugins/modules/dw_database_catalog.py` (Ansible module managing a CDP
Data Warehouse "Database Catalog").

The Python method is shallowly embedded as the Lean function `process`
below.  The remote SDK (`cdpy`) is modelled as an oracle structure `Api`
supplying the four remote operations and a time-indexed observation
oracle for the polling primitive.  Every externally visible action of a
run (remote calls, sleeps, warnings) is recorded in an event trace, and
the returned Ansible facts (`changed`, `database_catalogs`) together
with a possible fatal failure form the run output `RunOut`.
-/

/-- An observed remote Database Catalog record: the module only ever
reads the `id`, `name` and `status` fields of the dicts returned by the
SDK. -/
structure Record where
  id : String
  name : String
  status : String
  deriving Repr, DecidableEq

/-- The module parameters, as read in `DwDbc.__init__` via
`_get_param`: `id`, `cluster_id`, `name`, `load_demo_data`, `state`,
`wait`, `delay`, `timeout`.  Optional parameters are `Option`s
(Python `None`); `state` is kept as a raw string because `process`
itself re-checks it and fails on anything other than
`present`/`absent`. -/
structure ModuleParams where
  id : Option String
  cluster_id : String
  name : Option String
  load_demo_data : Option Bool
  state : String
  wait : Bool
  delay : Nat
  timeout : Nat
  deriving Repr, DecidableEq

/-- Externally visible actions of one run, in order of occurrence. -/
inductive Event where
  | listCall (clusterId : String)
  | describeCall (clusterId dbcId : String)
  | createCall (clusterId : String) (name : Option String) (loadDemoData : Option Bool)
  | deleteCall (clusterId dbcId : String)
  | waitCall (clusterId dbcId : String) (states : Option (List String)) (delay timeout : Nat)
  | sleepCall (secs : Nat)
  | warnMsg (msg : String)
  | scanByIdHit (dbcId : String)
  deriving Repr, DecidableEq

/-- The remote-API oracle: deterministic models of
`cdpy.dw.list_dbcs`, `cdpy.dw.describe_dbc`, `cdpy.dw.create_dbc`
(returning the new id), the status-set configuration
`cdpy.sdk.REMOVABLE_STATES` / `cdpy.sdk.STARTED_STATES`, and `observe`,
the sequence of records the polling primitive `wait_for_state` sees on
its successive `describe` invocations (`none` = resource not found).
Quantifying theorems over all `Api` values quantifies over all remote
behaviours the module can distinguish. -/
structure Api where
  list_dbcs : String → List Record
  describe_dbc : String → String → Record
  create_dbc : String → Option String → Option Bool → String
  observe : String → String → Nat → Option Record
  REMOVABLE_STATES : List String
  STARTED_STATES : List String

/-- Modelled from the spec: the polling primitive
`cdpy.sdk.wait_for_state` (external SDK code, not in this repository)
invoked with a target state set — repeatedly describe at `delay`
intervals, stop successfully once `status ∈ targetStates`, fail with a
timeout error if `timeout` elapses first.  `fuel` bounds the number of
polls; `k` is the index of the current poll in the observation
oracle. -/
def wait_until_state (ss : List String) (obs : Nat → Option Record) :
    Nat → Nat → Except String Record
  | 0, _ => .error "Timed out waiting for state"
  | fuel + 1, k =>
    match obs k with
    | some r => if r.status ∈ ss then .ok r else wait_until_state ss obs fuel (k + 1)
    | none => wait_until_state ss obs fuel (k + 1)

/-- Modelled from the spec: the polling primitive
`cdpy.sdk.wait_for_state` (external SDK code, not in this repository)
invoked with `field=None` — poll until the resource disappears
(describe signals not-found), fail with a timeout error if `timeout`
elapses first.  The caller in the delete branch discards the result. -/
def wait_until_gone (obs : Nat → Option Record) :
    Nat → Nat → Except String Unit
  | 0, _ => .error "Timed out waiting for state"
  | fuel + 1, k =>
    match obs k with
    | some _ => wait_until_gone obs fuel (k + 1)
    | none => .ok ()

/-- Number of polls the primitive performs before declaring a timeout:
one poll per `delay` seconds until `timeout` elapses, plus the initial
poll. -/
def numPolls (delay timeout : Nat) : Nat :=
  timeout / max 1 delay + 1

/-- One iteration of the lookup loop
(`for dbc in dbcs:` in `process`): if `self.name` is not `None` and the
listed record's name equals it, the target becomes the describe result
of that record; otherwise, if `self.id` is not `None` and the listed
record's id equals it, the target becomes the describe result of that
id (this `elif` arm additionally emits a `scanByIdHit` marker event so
its reachability is observable).  The accumulator carries the current
target and the events emitted so far. -/
def scanStep (api : Api) (p : ModuleParams)
    (acc : Option Record × List Event) (dbc : Record) :
    Option Record × List Event :=
  match p.name with
  | some n =>
    if dbc.name = n then
      (some (api.describe_dbc p.cluster_id dbc.id),
        acc.2 ++ [Event.describeCall p.cluster_id dbc.id])
    else
      match p.id with
      | some i =>
        if dbc.id = i then
          (some (api.describe_dbc p.cluster_id i),
            acc.2 ++ [Event.scanByIdHit i, Event.describeCall p.cluster_id i])
        else acc
      | none => acc
  | none =>
    match p.id with
    | some i =>
      if dbc.id = i then
        (some (api.describe_dbc p.cluster_id i),
          acc.2 ++ [Event.scanByIdHit i, Event.describeCall p.cluster_id i])
      else acc
    | none => acc

/-- The lookup phase of `process`: only when `self.id is None`, list
the catalogs of the cluster and run the scan loop over the result;
otherwise the target stays `None` (its initial value from
`__init__`). -/
def lookupPhase (api : Api) (p : ModuleParams) :
    Option Record × List Event :=
  match p.id with
  | some _ => (none, [])
  | none =>
    (api.list_dbcs p.cluster_id).foldl (scanStep api p)
      (none, [Event.listCall p.cluster_id])

/-- The output of one run: the `changed` fact, the
`database_catalogs` result list, the trace of external actions, and
`failed = some msg` when the run aborts (`fail_json` or a polling
timeout propagating); the other fields then hold the state reached at
the abort. -/
structure RunOut where
  changed : Bool
  database_catalogs : List Record
  events : List Event
  failed : Option String
  deriving Repr, DecidableEq

/-- The body of `process` after the lookup phase, branching on whether
a target was found, on `self.state`, on check mode and on `self.wait`,
exactly as the Python does. -/
def processWith (api : Api) (p : ModuleParams) (check_mode : Bool)
    (target : Option Record) (evs : List Event) : RunOut :=
  match target with
  | some tgt =>
    if p.state = "absent" then
      if check_mode then
        { changed := false, database_catalogs := [tgt], events := evs, failed := none }
      else
        let step :=
          if tgt.status ∈ api.REMOVABLE_STATES then
            (true, evs ++ [Event.deleteCall p.cluster_id tgt.id])
          else
            (false, evs ++ [Event.warnMsg
              ("DW Database Catalog not in valid state for Delete operation: " ++ tgt.status)])
        if p.wait then
          let evs2 := step.2 ++
            [Event.waitCall p.cluster_id tgt.id none p.delay p.timeout]
          match wait_until_gone (api.observe p.cluster_id tgt.id)
              (numPolls p.delay p.timeout) 0 with
          | .ok _ =>
            { changed := step.1, database_catalogs := [], events := evs2, failed := none }
          | .error e =>
            { changed := step.1, database_catalogs := [], events := evs2, failed := some e }
        else
          let tgt2 := api.describe_dbc p.cluster_id tgt.id
          { changed := step.1, database_catalogs := [tgt2],
            events := step.2 ++
              [Event.sleepCall p.delay, Event.describeCall p.cluster_id tgt.id],
            failed := none }
    else if p.state = "present" then
      let evs1 := evs ++ [Event.warnMsg
        "DW Database Catalog already present and config validation is not implemented"]
      if p.wait then
        let evs2 := evs1 ++
          [Event.waitCall p.cluster_id tgt.id (some api.STARTED_STATES) p.delay p.timeout]
        match wait_until_state api.STARTED_STATES (api.observe p.cluster_id tgt.id)
            (numPolls p.delay p.timeout) 0 with
        | .ok r =>
          { changed := false, database_catalogs := [r], events := evs2, failed := none }
        | .error e =>
          { changed := false, database_catalogs := [], events := evs2, failed := some e }
      else
        { changed := false, database_catalogs := [], events := evs1, failed := none }
    else
      { changed := false, database_catalogs := [], events := evs,
        failed := some ("State " ++ p.state ++ " is not valid for this module") }
  | none =>
    if p.state = "absent" then
      { changed := false, database_catalogs := [],
        events := evs ++ [Event.warnMsg
          ("DW Database Catalog " ++ p.name.getD "None" ++ " already absent in Cluster "
            ++ p.cluster_id)],
        failed := none }
    else if p.state = "present" then
      if check_mode then
        { changed := false, database_catalogs := [], events := evs, failed := none }
      else
        let dbc_id := api.create_dbc p.cluster_id p.name p.load_demo_data
        let evs1 := evs ++ [Event.createCall p.cluster_id p.name p.load_demo_data]
        if p.wait then
          let evs2 := evs1 ++
            [Event.waitCall p.cluster_id dbc_id (some api.STARTED_STATES) p.delay p.timeout]
          match wait_until_state api.STARTED_STATES (api.observe p.cluster_id dbc_id)
              (numPolls p.delay p.timeout) 0 with
          | .ok r =>
            { changed := true, database_catalogs := [r], events := evs2, failed := none }
          | .error e =>
            { changed := true, database_catalogs := [], events := evs2, failed := some e }
        else
          let r := api.describe_dbc p.cluster_id dbc_id
          { changed := true, database_catalogs := [r],
            events := evs1 ++ [Event.describeCall p.cluster_id dbc_id], failed := none }
    else
      { changed := false, database_catalogs := [], events := evs,
        failed := some ("State " ++ p.state ++ " is not valid for this module") }

/-- The whole of `DwDbc.process`: lookup phase, then the state
machine above. -/
def process (api : Api) (p : ModuleParams) (check_mode : Bool) : RunOut :=
  processWith api p check_mode (lookupPhase api p).1 (lookupPhase api p).2

/-- Is this event a mutating remote call (`create_dbc` or
`delete_dbc`)? -/
def isMutation : Event → Bool
  | .createCall _ _ _ => true
  | .deleteCall _ _ => true
  | _ => false

/-- Is this event a `create_dbc` call? -/
def isCreate : Event → Bool
  | .createCall _ _ _ => true
  | _ => false

/-- Is this event a `delete_dbc` call? -/
def isDelete : Event → Bool
  | .deleteCall _ _ => true
  | _ => false

/-- Is this event a warning (`module.warn`)? -/
def isWarn : Event → Bool
  | .warnMsg _ => true
  | _ => false

/-- Is this event a `describe_dbc` call made directly by the module
(polling observations inside `wait_for_state` are recorded as a single
`waitCall`)? -/
def isDescribe : Event → Bool
  | .describeCall _ _ => true
  | _ => false

/-- Is this event the marker for the scan-by-id `elif` arm of the
lookup loop? -/
def isScanByIdHit : Event → Bool
  | .scanByIdHit _ => true
  | _ => false

/-- Number of mutating remote calls in a trace. -/
def mutationCount (evs : List Event) : Nat := evs.countP isMutation

/-- Number of `create_dbc` calls in a trace. -/
def createCount (evs : List Event) : Nat := evs.countP isCreate

/-- Number of `delete_dbc` calls in a trace. -/
def deleteCount (evs : List Event) : Nat := evs.countP isDelete

/-- Number of warnings in a trace. -/
def warnCount (evs : List Event) : Nat := evs.countP isWarn

/-- Number of direct `describe_dbc` calls in a trace. -/
def describeCount (evs : List Event) : Nat := evs.countP isDescribe

/-! ## Concrete oracles and parameter sets used to exercise the model -/

/-- A catalog record in removable status. -/
def recDemoAvailable : Record :=
  { id := "d1", name := "demo", status := "AVAILABLE" }

/-- A catalog record in a non-removable status. -/
def recDemoCreating : Record :=
  { id := "d1", name := "demo", status := "CREATING" }

/-- A freshly created catalog record in a started status. -/
def recDemoStarted : Record :=
  { id := "d2", name := "demo", status := "Running" }

/-- A second record sharing the name `demo` (for duplicate-name
scans). -/
def recDemoDup : Record :=
  { id := "d9", name := "demo", status := "CREATING" }

/-- Remote with no catalogs; creation succeeds and the new catalog is
observed running at the first poll. -/
def apiEmpty : Api :=
  { list_dbcs := fun _ => []
    describe_dbc := fun _ i => { id := i, name := "demo", status := "AVAILABLE" }
    create_dbc := fun _ _ _ => "d2"
    observe := fun _ _ _ => some recDemoStarted
    REMOVABLE_STATES := ["AVAILABLE"]
    STARTED_STATES := ["Running"] }

/-- Remote with one catalog `d1` named `demo` in removable status; a
deleted catalog is gone at the first poll. -/
def apiFound : Api :=
  { apiEmpty with
    list_dbcs := fun _ => [recDemoAvailable]
    describe_dbc := fun _ _ => recDemoAvailable
    observe := fun _ _ _ => none }

/-- Remote with one catalog named `demo` in non-removable status. -/
def apiCreating : Api :=
  { apiFound with
    list_dbcs := fun _ => [recDemoCreating]
    describe_dbc := fun _ _ => recDemoCreating }

/-- Remote with two catalogs sharing the name `demo`. -/
def apiDup : Api :=
  { apiEmpty with
    list_dbcs := fun _ => [recDemoAvailable, recDemoDup] }

/-- Base parameters: lookup by name, `state=present`, waiting. -/
def pBase : ModuleParams :=
  { id := none, cluster_id := "c1", name := some "demo", load_demo_data := none,
    state := "present", wait := true, delay := 15, timeout := 3600 }

/-- Parameters for an absent-state run with waiting. -/
def pAbsentWait : ModuleParams := { pBase with state := "absent" }

/-- Parameters for an absent-state run without waiting. -/
def pAbsentNoWait : ModuleParams :=
  { pBase with state := "absent", wait := false, delay := 5 }

/-- Parameters for a present-state run without waiting. -/
def pPresentNoWait : ModuleParams := { pBase with wait := false }

/-- Parameters for a present-state run with a short polling policy. -/
def pPresentShort : ModuleParams := { pBase with delay := 1, timeout := 10 }

/-- The spec's delete-by-id example scenario: only `id` is supplied. -/
def pDeleteById : ModuleParams :=
  { id := some "d1", cluster_id := "c1", name := none, load_demo_data := none,
    state := "absent", wait := false, delay := 5, timeout := 3600 }

/-! ## Lemmas about the lookup phase -/

/-- When `p.id` is `None` (the only situation in which the scan loop
runs), one scan step appends only `describeCall` events to the trace:
for any event predicate `q` that ignores describe calls, the count is
preserved. -/
theorem scanStep_snd_countP (api : Api) (p : ModuleParams) (q : Event → Bool)
    (hid : p.id = none)
    (hq : ∀ c i, q (Event.describeCall c i) = false)
    (acc : Option Record × List Event) (dbc : Record) :
    ((scanStep api p acc dbc).2).countP q = (acc.2).countP q := by
  unfold scanStep
  cases hn : p.name with
  | some n =>
    by_cases h : dbc.name = n
    · simp [h, List.countP_append, List.countP_cons, hq]
    · simp [h, hid]
  | none => simp [hid]

/-- Event counts over the whole scan loop: only `describeCall` events
are added. -/
theorem foldl_scan_countP (api : Api) (p : ModuleParams) (q : Event → Bool)
    (hid : p.id = none)
    (hq : ∀ c i, q (Event.describeCall c i) = false)
    (l : List Record) :
    ∀ (t : Option Record) (evs : List Event),
      ((l.foldl (scanStep api p) (t, evs)).2).countP q = evs.countP q := by
  induction l with
  | nil => intro t evs; rfl
  | cons x xs ih =>
    intro t evs
    rw [List.foldl_cons]
    have h2 := scanStep_snd_countP api p q hid hq (t, evs) x
    rcases hx : scanStep api p (t, evs) x with ⟨t2, e2⟩
    rw [hx] at h2
    rw [ih t2 e2]
    exact h2

/-- The lookup phase emits only `listCall` and `describeCall` events:
any event predicate ignoring those two counts zero over its trace. -/
theorem lookupPhase_countP (api : Api) (p : ModuleParams) (q : Event → Bool)
    (hq0 : ∀ c, q (Event.listCall c) = false)
    (hq : ∀ c i, q (Event.describeCall c i) = false) :
    ((lookupPhase api p).2).countP q = 0 := by
  unfold lookupPhase
  cases hid : p.id with
  | some i => rfl
  | none =>
    rw [foldl_scan_countP api p q hid hq]
    simp [List.countP_cons, hq0]

/-- When `p.id` is `None` and `p.name` is given, one scan step is
exactly the name-match step: a matching record replaces the target by
its describe result (emitting the describe call); anything else leaves
the accumulator untouched. -/
theorem scanStep_name (api : Api) (p : ModuleParams) (n : String)
    (hid : p.id = none) (hn : p.name = some n)
    (acc : Option Record × List Event) (dbc : Record) :
    scanStep api p acc dbc =
      if dbc.name = n then
        (some (api.describe_dbc p.cluster_id dbc.id),
          acc.2 ++ [Event.describeCall p.cluster_id dbc.id])
      else acc := by
  unfold scanStep
  rw [hn, hid]

/-- Last-match-wins: with `p.id = None` and `p.name = some n`, the
target computed by the scan loop is the describe result of the LAST
listed record whose name is `n` (or the initial target when none
matches). -/
theorem foldl_scan_target (api : Api) (p : ModuleParams) (n : String)
    (hid : p.id = none) (hn : p.name = some n) (l : List Record) :
    ∀ (t : Option Record) (evs : List Event),
      (l.foldl (scanStep api p) (t, evs)).1 =
        match (l.filter (fun r => r.name = n)).getLast? with
        | some r => some (api.describe_dbc p.cluster_id r.id)
        | none => t := by
  induction l with
  | nil => intro t evs; rfl
  | cons x xs ih =>
    intro t evs
    rw [List.foldl_cons, scanStep_name api p n hid hn (t, evs) x]
    by_cases h : x.name = n
    · rw [if_pos h]
      rw [ih]
      have hf : (x :: xs).filter (fun r => r.name = n) =
          x :: xs.filter (fun r => r.name = n) := by
        simp [List.filter_cons, h]
      rw [hf]
      cases hfl : xs.filter (fun r => r.name = n) with
      | nil => simp
      | cons y ys =>
        rw [List.getLast?_cons_cons]
        cases hlast : (y :: ys).getLast? with
        | some r => rfl
        | none =>
          rw [List.getLast?_eq_none_iff] at hlast
          exact absurd hlast (List.cons_ne_nil y ys)
    · rw [if_neg h]
      rw [ih]
      have hf : (x :: xs).filter (fun r => r.name = n) =
          xs.filter (fun r => r.name = n) := by
        simp [List.filter_cons, h]
      rw [hf]

/-- No short-circuit: with `p.id = None` and `p.name = some n`, the
scan loop issues one `describe_dbc` call per matching record — the
number of describe calls added to the trace equals the number of listed
records whose name is `n`, so every match in the whole list is visited
and described. -/
theorem foldl_scan_describeCount (api : Api) (p : ModuleParams) (n : String)
    (hid : p.id = none) (hn : p.name = some n) (l : List Record) :
    ∀ (t : Option Record) (evs : List Event),
      describeCount (l.foldl (scanStep api p) (t, evs)).2 =
        describeCount evs + (l.filter (fun r => r.name = n)).length := by
  induction l with
  | nil => intro t evs; simp
  | cons x xs ih =>
    intro t evs
    rw [List.foldl_cons, scanStep_name api p n hid hn (t, evs) x]
    by_cases h : x.name = n
    · rw [if_pos h]
      rw [ih]
      have hf : (x :: xs).filter (fun r => r.name = n) =
          x :: xs.filter (fun r => r.name = n) := by
        simp [List.filter_cons, h]
      rw [hf]
      simp [describeCount, List.countP_append, List.countP_cons, isDescribe]
      omega
    · rw [if_neg h]
      rw [ih]
      have hf : (x :: xs).filter (fun r => r.name = n) =
          xs.filter (fun r => r.name = n) := by
        simp [List.filter_cons, h]
      rw [hf]

/-! ## Lemmas about the polling primitive and the main body -/

/-- A successful `wait_for_state` with a target state set returns a
record whose status is in that set: polling continues until the
observed status is a member (or the fuel/timeout is exhausted, in which
case there is no `ok` result). -/
theorem wait_until_state_ok (ss : List String) (obs : Nat → Option Record) :
    ∀ (fuel k : Nat) (r : Record),
      wait_until_state ss obs fuel k = .ok r → r.status ∈ ss := by
  intro fuel
  induction fuel with
  | zero =>
    intro k r h
    exact absurd h (by simp [wait_until_state])
  | succ m ih =>
    intro k r h
    unfold wait_until_state at h
    split at h
    · split at h
      · cases h
        assumption
      · exact ih (k + 1) r h
    · exact ih (k + 1) r h

/-- Across every branch of the body, at most one mutating call
(`create_dbc` or `delete_dbc`) is appended to the incoming trace. -/
theorem processWith_mutation_le (api : Api) (p : ModuleParams) (c : Bool)
    (target : Option Record) (evs : List Event) :
    mutationCount (processWith api p c target evs).events ≤ mutationCount evs + 1 := by
  unfold processWith
  repeat' split
  all_goals dsimp only
  all_goals (repeat' split)
  all_goals simp [mutationCount, List.countP_append, List.countP_cons, isMutation]

/-- The body only ever appends describe, create, delete, wait, sleep
and warning events: an event predicate false on all of those counts the
same over the output trace as over the incoming trace. -/
theorem processWith_countP (api : Api) (p : ModuleParams) (c : Bool)
    (target : Option Record) (evs : List Event) (q : Event → Bool)
    (h1 : ∀ a b, q (Event.describeCall a b) = false)
    (h2 : ∀ a b d, q (Event.createCall a b d) = false)
    (h3 : ∀ a b, q (Event.deleteCall a b) = false)
    (h4 : ∀ a b s d t, q (Event.waitCall a b s d t) = false)
    (h5 : ∀ s, q (Event.sleepCall s) = false)
    (h6 : ∀ m, q (Event.warnMsg m) = false) :
    ((processWith api p c target evs).events).countP q = evs.countP q := by
  unfold processWith
  repeat' split
  all_goals dsimp only
  all_goals (repeat' split)
  all_goals simp [List.countP_append, List.countP_cons, h1, h2, h3, h4, h5, h6]

/-- In check mode the body never appends a mutating call and never
sets `changed`. -/
theorem processWith_check (api : Api) (p : ModuleParams)
    (target : Option Record) (evs : List Event) :
    mutationCount (processWith api p true target evs).events = mutationCount evs ∧
      (processWith api p true target evs).changed = false := by
  unfold processWith
  repeat' split
  all_goals dsimp only
  all_goals (repeat' split)
  all_goals simp_all [mutationCount, List.countP_append, List.countP_cons, isMutation]

/-- The lookup phase issues no mutating calls. -/
theorem lookup_countP_mutation (api : Api) (p : ModuleParams) :
    ((lookupPhase api p).2).countP isMutation = 0 :=
  lookupPhase_countP api p isMutation (fun _ => rfl) (fun _ _ => rfl)

/-- The lookup phase issues no `create_dbc` calls. -/
theorem lookup_countP_create (api : Api) (p : ModuleParams) :
    ((lookupPhase api p).2).countP isCreate = 0 :=
  lookupPhase_countP api p isCreate (fun _ => rfl) (fun _ _ => rfl)

/-- The lookup phase issues no `delete_dbc` calls. -/
theorem lookup_countP_delete (api : Api) (p : ModuleParams) :
    ((lookupPhase api p).2).countP isDelete = 0 :=
  lookupPhase_countP api p isDelete (fun _ => rfl) (fun _ _ => rfl)

/-- The lookup phase emits no warnings. -/
theorem lookup_countP_warn (api : Api) (p : ModuleParams) :
    ((lookupPhase api p).2).countP isWarn = 0 :=
  lookupPhase_countP api p isWarn (fun _ => rfl) (fun _ _ => rfl)

/-- The lookup phase never reaches the scan-by-id arm. -/
theorem lookup_countP_scanById (api : Api) (p : ModuleParams) :
    ((lookupPhase api p).2).countP isScanByIdHit = 0 :=
  lookupPhase_countP api p isScanByIdHit (fun _ => rfl) (fun _ _ => rfl)

/-- Create calls are among the mutating calls. -/
theorem createCount_le_mutationCount (l : List Event) :
    createCount l ≤ mutationCount l := by
  refine List.countP_mono_left ?_
  intro a _ ha
  cases a <;> simp_all [isCreate, isMutation]

/-- Delete calls are among the mutating calls. -/
theorem deleteCount_le_mutationCount (l : List Event) :
    deleteCount l ≤ mutationCount l := by
  refine List.countP_mono_left ?_
  intro a _ ha
  cases a <;> simp_all [isDelete, isMutation]

/-! ## Branch equations for the body -/

/-- Branch: no target found, `state=absent` — warn only. -/
theorem processWith_none_absent (api : Api) (p : ModuleParams) (c : Bool)
    (hs : p.state = "absent") (evs : List Event) :
    processWith api p c none evs =
      { changed := false, database_catalogs := [],
        events := evs ++ [Event.warnMsg
          ("DW Database Catalog " ++ p.name.getD "None" ++ " already absent in Cluster "
            ++ p.cluster_id)],
        failed := none } := by
  unfold processWith
  simp [hs]

/-- Branch: no target found, `state=present`, not check mode,
`wait=true` — create then poll for a started state. -/
theorem processWith_none_present_wait (api : Api) (p : ModuleParams)
    (hs : p.state = "present") (hw : p.wait = true) (evs : List Event) :
    processWith api p false none evs =
      match wait_until_state api.STARTED_STATES
          (api.observe p.cluster_id (api.create_dbc p.cluster_id p.name p.load_demo_data))
          (numPolls p.delay p.timeout) 0 with
      | .ok r =>
        { changed := true, database_catalogs := [r],
          events := evs ++ [Event.createCall p.cluster_id p.name p.load_demo_data,
            Event.waitCall p.cluster_id (api.create_dbc p.cluster_id p.name p.load_demo_data)
              (some api.STARTED_STATES) p.delay p.timeout],
          failed := none }
      | .error e =>
        { changed := true, database_catalogs := [],
          events := evs ++ [Event.createCall p.cluster_id p.name p.load_demo_data,
            Event.waitCall p.cluster_id (api.create_dbc p.cluster_id p.name p.load_demo_data)
              (some api.STARTED_STATES) p.delay p.timeout],
          failed := some e } := by
  unfold processWith
  simp [hs, hw]

/-- Branch: target found, `state=present`, `wait=false` — warn only,
and (asymmetrically) nothing is appended to the result list. -/
theorem processWith_found_present_nowait (api : Api) (p : ModuleParams) (c : Bool)
    (tgt : Record) (hs : p.state = "present") (hw : p.wait = false) (evs : List Event) :
    processWith api p c (some tgt) evs =
      { changed := false, database_catalogs := [],
        events := evs ++ [Event.warnMsg
          "DW Database Catalog already present and config validation is not implemented"],
        failed := none } := by
  unfold processWith
  simp [hs, hw]

/-- The scan loop only appends to the incoming trace. -/
theorem foldl_scan_events_prefix (api : Api) (p : ModuleParams) (l : List Record) :
    ∀ (t : Option Record) (evs : List Event),
      ∃ tail, (l.foldl (scanStep api p) (t, evs)).2 = evs ++ tail := by
  induction l with
  | nil =>
    intro t evs
    exact ⟨[], (List.append_nil evs).symm⟩
  | cons x xs ih =>
    intro t evs
    rw [List.foldl_cons]
    rcases hx : scanStep api p (t, evs) x with ⟨t2, e2⟩
    have he2 : ∃ mid, e2 = evs ++ mid := by
      unfold scanStep at hx
      repeat' split at hx
      all_goals cases hx
      all_goals first
        | exact ⟨_, rfl⟩
        | exact ⟨[], (List.append_nil evs).symm⟩
    rcases he2 with ⟨mid, hm⟩
    rcases ih t2 e2 with ⟨tail, ht⟩
    exact ⟨mid ++ tail, by rw [ht, hm, List.append_assoc]⟩

/-! ## Claim theorems -/

/-- C2: For every input spec and every behaviour of the remote API, a
single reconciliation run issues at most one mutating remote call: the
total number of `create_dbc` calls plus `delete_dbc` calls in one run
is at most 1. -/
theorem c2_at_most_one_mutating_call (api : Api) (p : ModuleParams) (c : Bool) :
    mutationCount (process api p c).events ≤ 1 := by
  unfold process
  have h := processWith_mutation_le api p c (lookupPhase api p).1 (lookupPhase api p).2
  have h0 := lookup_countP_mutation api p
  unfold mutationCount at h ⊢
  omega

/-- C10: In check mode (`dryRun = true`) no `create_dbc` and no
`delete_dbc` call occurs in any branch, and the run ends with
`changed = false`. -/
theorem c10_check_mode_safe (api : Api) (p : ModuleParams) :
    createCount (process api p true).events = 0 ∧
      deleteCount (process api p true).events = 0 ∧
      (process api p true).changed = false := by
  have h := processWith_check api p (lookupPhase api p).1 (lookupPhase api p).2
  have h0 := lookup_countP_mutation api p
  have hm : mutationCount (process api p true).events = 0 := by
    unfold process
    unfold mutationCount at h ⊢
    omega
  have hc := createCount_le_mutationCount (process api p true).events
  have hd := deleteCount_le_mutationCount (process api p true).events
  refine ⟨by omega, by omega, ?_⟩
  unfold process
  exact h.2

/-- C8: The scan-by-id `elif` arm inside the lookup loop is
unreachable: no execution of `process`, over any remote behaviour,
parameters or check mode, ever runs it — filtering any run's trace for
its marker event always yields the empty list. -/
theorem c8_scan_by_id_unreachable (api : Api) (p : ModuleParams) (c : Bool) :
    ((process api p c).events).filter isScanByIdHit = [] := by
  have hcount : ((process api p c).events).countP isScanByIdHit = 0 := by
    unfold process
    rw [processWith_countP api p c (lookupPhase api p).1 (lookupPhase api p).2 isScanByIdHit
      (fun _ _ => rfl) (fun _ _ _ => rfl) (fun _ _ => rfl) (fun _ _ _ _ _ => rfl)
      (fun _ => rfl) (fun _ => rfl)]
    exact lookup_countP_scanById api p
  rw [List.countP_eq_zero] at hcount
  rw [List.filter_eq_nil_iff]
  exact hcount

/-- C3: For every spec with `state=absent` where the lookup phase finds
no remote target, the run ends with `changed=false` and an empty
resources list, exactly one warning is emitted, and no `create_dbc` or
`delete_dbc` call occurs. -/
theorem c3_absent_not_found (api : Api) (p : ModuleParams) (c : Bool)
    (hs : p.state = "absent") (hl : (lookupPhase api p).1 = none) :
    (process api p c).changed = false ∧
      (process api p c).database_catalogs = [] ∧
      warnCount (process api p c).events = 1 ∧
      mutationCount (process api p c).events = 0 := by
  unfold process
  rw [hl, processWith_none_absent api p c hs]
  refine ⟨rfl, rfl, ?_, ?_⟩
  · unfold warnCount
    simp [List.countP_append, List.countP_cons, isWarn, lookup_countP_warn api p]
  · unfold mutationCount
    simp [List.countP_append, List.countP_cons, isMutation, lookup_countP_mutation api p]

/-- Witness for C3: a run against a remote with no catalogs, with
`state=absent`. -/
theorem c3_witness :
    (process apiEmpty pAbsentWait false).changed = false ∧
      (process apiEmpty pAbsentWait false).database_catalogs = [] ∧
      warnCount (process apiEmpty pAbsentWait false).events = 1 ∧
      mutationCount (process apiEmpty pAbsentWait false).events = 0 :=
  c3_absent_not_found apiEmpty pAbsentWait false rfl rfl

/-- C5: For every spec with `state=absent` (run outside check mode)
where the lookup phase finds a target whose status is not in
`REMOVABLE_STATES`: zero `delete_dbc` calls occur, a warning is
emitted, and the run ends with `changed=false`. -/
theorem c5_absent_not_removable (api : Api) (p : ModuleParams) (tgt : Record)
    (hl : (lookupPhase api p).1 = some tgt) (hs : p.state = "absent")
    (hrem : tgt.status ∉ api.REMOVABLE_STATES) :
    deleteCount (process api p false).events = 0 ∧
      warnCount (process api p false).events = 1 ∧
      (process api p false).changed = false := by
  unfold process
  rw [hl]
  unfold processWith
  repeat' split
  all_goals dsimp only
  all_goals simp_all [deleteCount, warnCount, List.countP_append, List.countP_cons,
    isDelete, isWarn, lookup_countP_delete, lookup_countP_warn]

/-- Witness for C5: deleting a catalog stuck in status `CREATING`
(not removable). -/
theorem c5_witness :
    deleteCount (process apiCreating pAbsentNoWait false).events = 0 ∧
      warnCount (process apiCreating pAbsentNoWait false).events = 1 ∧
      (process apiCreating pAbsentNoWait false).changed = false :=
  c5_absent_not_removable apiCreating pAbsentNoWait recDemoCreating rfl rfl (by decide)

/-- C7: For every run where a target is found and `state=present` with
`wait=false`, no record is appended to the returned resources — the
`database_catalogs` list stays empty in that branch. -/
theorem c7_present_nowait_empty (api : Api) (p : ModuleParams) (c : Bool) (tgt : Record)
    (hl : (lookupPhase api p).1 = some tgt) (hs : p.state = "present")
    (hw : p.wait = false) :
    (process api p c).database_catalogs = [] := by
  unfold process
  rw [hl, processWith_found_present_nowait api p c tgt hs hw]

/-- Witness for C7: an existing catalog, `state=present`, no wait. -/
theorem c7_witness :
    (process apiFound pPresentNoWait false).database_catalogs = [] :=
  c7_present_nowait_empty apiFound pPresentNoWait false recDemoAvailable rfl rfl rfl

/-- C9: For every spec with `state=absent`, a target found, run outside
check mode with `wait=true`, the returned resources list is empty: the
record observed by the wait-for-deletion poll is discarded and nothing
is appended (unlike the `wait=false` branch, which re-describes and
appends the result). -/
theorem c9_absent_wait_empty (api : Api) (p : ModuleParams) (tgt : Record)
    (hl : (lookupPhase api p).1 = some tgt) (hs : p.state = "absent")
    (hw : p.wait = true) :
    (process api p false).database_catalogs = [] := by
  unfold process
  rw [hl]
  unfold processWith
  repeat' split
  all_goals dsimp only
  all_goals simp_all

/-- Witness for C9: deleting an existing removable catalog with
`wait=true` returns no resources. -/
theorem c9_witness :
    (process apiFound pAbsentWait false).database_catalogs = [] :=
  c9_absent_wait_empty apiFound pAbsentWait recDemoAvailable rfl rfl rfl

/-- C6: When `id` is absent and `name` is given, the lookup phase
lists the cluster and scans the entire sequence without
short-circuiting — one `describe_dbc` call is issued per matching
record, so the count of describe calls equals the number of records
named `n` — and the resulting target is the describe result of the
LAST matching record (last-match-wins). -/
theorem c6_lookup_last_match (api : Api) (p : ModuleParams) (n : String)
    (hid : p.id = none) (hn : p.name = some n) :
    (lookupPhase api p).1 =
        ((api.list_dbcs p.cluster_id).filter (fun r => r.name = n)).getLast?.map
          (fun r => api.describe_dbc p.cluster_id r.id) ∧
      describeCount (lookupPhase api p).2 =
        ((api.list_dbcs p.cluster_id).filter (fun r => r.name = n)).length ∧
      Event.listCall p.cluster_id ∈ (lookupPhase api p).2 := by
  have hlp : lookupPhase api p =
      (api.list_dbcs p.cluster_id).foldl (scanStep api p)
        (none, [Event.listCall p.cluster_id]) := by
    unfold lookupPhase
    rw [hid]
  refine ⟨?_, ?_, ?_⟩
  · rw [hlp, foldl_scan_target api p n hid hn]
    cases ((api.list_dbcs p.cluster_id).filter (fun r => r.name = n)).getLast? <;> rfl
  · rw [hlp, foldl_scan_describeCount api p n hid hn]
    simp [describeCount, isDescribe]
  · rw [hlp]
    rcases foldl_scan_events_prefix api p (api.list_dbcs p.cluster_id) none
      [Event.listCall p.cluster_id] with ⟨tail, ht⟩
    rw [ht]
    exact List.mem_append_left _ (List.mem_singleton_self _)

/-- Witness for C6: two listed catalogs share the name `demo`; the
target is the describe result of the second (last) one. -/
theorem c6_witness :
    (lookupPhase apiDup pBase).1 =
        ((apiDup.list_dbcs pBase.cluster_id).filter (fun r => r.name = "demo")).getLast?.map
          (fun r => apiDup.describe_dbc pBase.cluster_id r.id) ∧
      describeCount (lookupPhase apiDup pBase).2 =
        ((apiDup.list_dbcs pBase.cluster_id).filter (fun r => r.name = "demo")).length ∧
      Event.listCall pBase.cluster_id ∈ (lookupPhase apiDup pBase).2 :=
  c6_lookup_last_match apiDup pBase "demo" rfl rfl

/-- C4: For every spec with `state=present` where no target is found,
outside check mode and with `wait=true`: exactly one `create_dbc` call
is made; and whenever the run completes without a polling timeout, it
ends with `changed=true` and returns exactly one record whose status is
in `STARTED_STATES` (the polling primitive stops at the first observed
started status within the timeout budget). -/
theorem c4_present_create_wait (api : Api) (p : ModuleParams)
    (hs : p.state = "present") (hl : (lookupPhase api p).1 = none)
    (hw : p.wait = true) :
    createCount (process api p false).events = 1 ∧
      ((process api p false).failed = none →
        (process api p false).changed = true ∧
          ∃ r, (process api p false).database_catalogs = [r] ∧
            r.status ∈ api.STARTED_STATES) := by
  unfold process
  rw [hl, processWith_none_present_wait api p hs hw]
  cases hwres : wait_until_state api.STARTED_STATES
      (api.observe p.cluster_id (api.create_dbc p.cluster_id p.name p.load_demo_data))
      (numPolls p.delay p.timeout) 0 with
  | ok r =>
    dsimp only
    refine ⟨?_, fun _ => ⟨rfl, r, rfl,
      wait_until_state_ok api.STARTED_STATES
        (api.observe p.cluster_id (api.create_dbc p.cluster_id p.name p.load_demo_data))
        (numPolls p.delay p.timeout) 0 r hwres⟩⟩
    unfold createCount
    simp [List.countP_append, List.countP_cons, isCreate, lookup_countP_create api p]
  | error e =>
    dsimp only
    refine ⟨?_, fun hfail => absurd hfail (by simp)⟩
    unfold createCount
    simp [List.countP_append, List.countP_cons, isCreate, lookup_countP_create api p]

/-- Witness for C4: creating `demo` against an empty remote, observed
running at the first poll. -/
theorem c4_witness :
    createCount (process apiEmpty pPresentShort false).events = 1 ∧
      ((process apiEmpty pPresentShort false).failed = none →
        (process apiEmpty pPresentShort false).changed = true ∧
          ∃ r, (process apiEmpty pPresentShort false).database_catalogs = [r] ∧
            r.status ∈ apiEmpty.STARTED_STATES) :=
  c4_present_create_wait apiEmpty pPresentShort rfl rfl rfl

/-- C1 (divergence evaluation): on the spec's delete-by-id scenario —
parameters `{id:"d1", clusterId:"c1", state:"absent", wait:false,
delay:5}` against a remote where `d1` exists with removable status
`"AVAILABLE"` — the code issues NO `delete_dbc` call, ends with
`changed=false` and an empty result, and only warns that the catalog is
"already absent": because `id` was supplied, the lookup loop
(`if self.id is None:`) never runs, the target stays `None`, and the
not-found branch is taken, contradicting the module's documented
behaviour ("If an ID is provided, that Database Catalog will be deleted
if state=absent") and the spec's expected one-delete/changed-true
outcome.  The last two conjuncts record that the remote target does
exist and is removable in this scenario. -/
theorem c1_delete_by_id_divergence :
    deleteCount (process apiFound pDeleteById false).events = 0 ∧
      (process apiFound pDeleteById false).changed = false ∧
      (process apiFound pDeleteById false).database_catalogs = [] ∧
      (process apiFound pDeleteById false).events =
        [Event.warnMsg "DW Database Catalog None already absent in Cluster c1"] ∧
      recDemoAvailable.status ∈ apiFound.REMOVABLE_STATES ∧
      apiFound.describe_dbc "c1" "d1" = recDemoAvailable :=
  ⟨rfl, rfl, rfl, rfl, by decide, rfl⟩
